import Mathlib

/-!
# Block-devices admission webhook

A shallow embedding of `cmd/webhook/main.go`: the HTTP handler `mutateFunc`,
the admission core `mutate` (claim counting, resource injection, patch
computation) and the configuration helper `getEnv`.

Everything the program obtains from a library or from the cluster is an
explicit parameter (`Collaborators`): the JSON codec, the JSON-patch differ,
the compiled provisioner pattern and the claim lookup of the cluster client.
The cluster client is stateful, so its state is threaded through the code.
-/

namespace BlockDevicesWebhook

/-! ## Constants of `main.go` -/

def jsonContentType : String := "application/json"

def blockDeviceResource : String := "cloudflight.io/block-devices"

def provisionerEnv : String := "PROVISIONER_REGEX"

def provisionerKey : String := "volume.beta.kubernetes.io/storage-provisioner"

/-- Go `http.MethodPost`. -/
def MethodPost : String := "POST"

/-- Go `http.StatusMethodNotAllowed`. -/
def StatusMethodNotAllowed : Nat := 405

/-- Go `http.StatusBadRequest`. -/
def StatusBadRequest : Nat := 400

/-- Go `http.StatusOK`, the status a `ResponseWriter` uses when the body is
written without a preceding `WriteHeader`. -/
def StatusOK : Nat := 200

/-! ## Data model -/

/-- Go `[]byte` holding a serialized document. -/
abbrev Bytes := String

/-- Go `resource.Format`. -/
inductive Format where
  | DecimalExponent
  | BinarySI
  | DecimalSI
  deriving DecidableEq, Repr

/-- Go `resource.Quantity`: an `int64` amount with a decimal scale and a
display format. -/
structure Quantity where
  value : Int
  scale : Int
  format : Format
  deriving DecidableEq, Repr

/-- Go `resource.NewQuantity(value, format)`: the whole-unit quantity. -/
def NewQuantity (value : Int) (format : Format) : Quantity :=
  { value := value, scale := 0, format := format }

/-- Go `map[string]V`, as an association list. A Go map holds each key at most
once; the operations below keep that property. -/
abbrev GoMap (β : Type) := List (String × β)

/-- Go `v, ok := m[k]`. -/
def GoMap.get {β : Type} (m : GoMap β) (k : String) : Option β :=
  List.lookup k m

/-- Go `delete(m, k)`. -/
def GoMap.delete {β : Type} (m : GoMap β) (k : String) : GoMap β :=
  List.filter (fun e => e.1 != k) m

/-- Go `m[k] = v`. -/
def GoMap.set {β : Type} (m : GoMap β) (k : String) (v : β) : GoMap β :=
  (k, v) :: GoMap.delete m k

/-- Go `corev1.ResourceList`. -/
abbrev ResourceList := GoMap Quantity

/-- Lookup in a map that may be nil: a nil map has no entry. -/
def lookupResource (m : Option ResourceList) (k : String) : Option Quantity :=
  match m with
  | none => none
  | some l => GoMap.get l k

/-- Go `corev1.ResourceRequirements`; `none` is the nil map. -/
structure ResourceRequirements where
  limits : Option ResourceList
  requests : Option ResourceList
  deriving DecidableEq, Repr

/-- Go `corev1.Container`. The fields the program never reads or writes are
gathered in `rest`. -/
structure Container where
  name : String
  rest : String
  resources : ResourceRequirements
  deriving DecidableEq, Repr

/-- Go `corev1.PersistentVolumeClaimVolumeSource`. -/
structure PersistentVolumeClaimVolumeSource where
  claimName : String
  readOnly : Bool
  deriving DecidableEq, Repr

/-- Go `corev1.Volume`; `persistentVolumeClaim = none` is the nil pointer, and
`otherSource` stands for every other kind of volume source. -/
structure Volume where
  name : String
  persistentVolumeClaim : Option PersistentVolumeClaimVolumeSource
  otherSource : String
  deriving DecidableEq, Repr

/-- Go `corev1.PodSpec`. -/
structure PodSpec where
  volumes : List Volume
  containers : List Container
  rest : String
  deriving DecidableEq, Repr

/-- Go `corev1.Pod`. -/
structure Pod where
  generateName : String
  metadata : String
  spec : PodSpec
  status : String
  deriving DecidableEq, Repr

/-- Go `corev1.PersistentVolumeClaim`, reduced to what the program reads. -/
structure PersistentVolumeClaim where
  name : String
  annotations : GoMap String
  deriving DecidableEq, Repr

/-- Go `jsonpatch.Operation`; `value` is the serialized JSON value, if any. -/
structure Operation where
  op : String
  path : String
  value : Option String
  deriving DecidableEq, Repr

/-- Go `metav1.Status`, reduced to its message. -/
structure Status where
  message : String
  deriving DecidableEq, Repr

/-- Go `admiv1beta1.AdmissionRequest`: `object` is `Object.Raw` and `nameSpace`
is `Namespace`. -/
structure AdmissionRequest where
  uid : String
  nameSpace : String
  object : Bytes
  deriving DecidableEq, Repr

/-- Go `admiv1beta1.AdmissionResponse`; `patch = none` is the nil slice. -/
structure AdmissionResponse where
  uid : String
  allowed : Bool
  result : Option Status
  patch : Option Bytes
  patchType : Option String
  deriving DecidableEq, Repr

/-- Go `admiv1beta1.AdmissionReview`. -/
structure AdmissionReview where
  request : Option AdmissionRequest
  response : Option AdmissionResponse
  deriving DecidableEq, Repr

/-- What `mutateFunc` reads of the `*http.Request`: the method, the outcome of
`ioutil.ReadAll(r.Body)` and `r.Header.Get("Content-Type")`. -/
structure HttpRequest where
  method : String
  body : Except String Bytes
  contentType : String

/-- What `mutateFunc` leaves in the `http.ResponseWriter`: the status code and
the value handed to the JSON encoder, if any. -/
structure HttpResponse where
  status : Nat
  body : Option AdmissionReview
  deriving DecidableEq, Repr

/-- The libraries and the cluster client the program calls. `σ` is the state
of the cluster as seen through the client. -/
structure Collaborators (σ : Type) where
  /-- Go `deserializer.Decode(body, nil, &admissionReviewReq)`. -/
  decodeReview : Bytes → Except String AdmissionReview
  /-- Go `json.Unmarshal(req.Object.Raw, &pod)`. -/
  unmarshalPod : Bytes → Except String Pod
  /-- Go `json.Marshal(pod)`. -/
  marshalPod : Pod → Except String Bytes
  /-- Go `jsonpatch.CreatePatch(a, b)`. -/
  createPatch : Bytes → Bytes → Except String (List Operation)
  /-- Go `json.Marshal(patch)`. -/
  marshalPatch : List Operation → Except String Bytes
  /-- Go `provRegex.FindStringIndex(s) != nil`. -/
  provRegexMatches : String → Bool
  /-- Go `client.CoreV1().PersistentVolumeClaims(ns).Get(name, ...)`. -/
  getClaim : σ → String → String → Except String PersistentVolumeClaim × σ

/-! ## `getEnv` and the start-up pattern -/

/-- Go `os.LookupEnv` over an explicit environment. -/
abbrev Environment := String → Option String

/-- `getEnv` of `main.go`. -/
def getEnv (env : Environment) (key : String) (defaultVal : String) : String :=
  match env key with
  | some value => value
  | none => defaultVal

/-- The pattern source `main` hands to `regexp.Compile` (line 46). -/
def provRegexSource (env : Environment) : String :=
  getEnv env provisionerKey "cinder|vsphere"

/-! ## `mutate` -/

/-- The claim-counting loop of `mutate` (lines 138-155). A Go slice has at most
`2^63 - 1` elements, so the `int64` counter cannot overflow. -/
def countLoop {σ : Type} (k : Collaborators σ) (ns : String) :
    List Volume → Int → σ → Int × σ
  | [], pvcs, s => (pvcs, s)
  | v :: vs, pvcs, s =>
    match v.persistentVolumeClaim with
    | none => countLoop k ns vs pvcs s
    | some src =>
      match k.getClaim s ns src.claimName with
      | (Except.error _, s1) => countLoop k ns vs (pvcs + 1) s1
      | (Except.ok claim, s1) =>
        match GoMap.get claim.annotations provisionerKey with
        | some prov =>
          if k.provRegexMatches prov then countLoop k ns vs (pvcs + 1) s1
          else countLoop k ns vs pvcs s1
        | none => countLoop k ns vs pvcs s1

/-- The body of the injection loop for one container (lines 169-185). -/
def injectContainer (blockdevices : Int) (container : Container) : Container :=
  if blockdevices = 0 then
    let limits :=
      match container.resources.limits with
      | some m => some (GoMap.delete m blockDeviceResource)
      | none => none
    let requests :=
      match container.resources.requests with
      | some m => some (GoMap.delete m blockDeviceResource)
      | none => none
    { container with resources := { limits := limits, requests := requests } }
  else
    let limits :=
      match container.resources.limits with
      | some m => m
      | none => []
    let requests :=
      match container.resources.requests with
      | some m => m
      | none => []
    { container with resources :=
        { limits := some (GoMap.set limits blockDeviceResource
            (NewQuantity blockdevices Format.DecimalSI))
          requests := some (GoMap.set requests blockDeviceResource
            (NewQuantity blockdevices Format.DecimalSI)) } }

/-- The injection loop over the containers from index `i` on (lines 161-188). -/
def injectLoop (pvcs : Int) : Nat → List Container → List Container
  | _, [] => []
  | i, container :: cs =>
    injectContainer (if i = 0 then pvcs else 0) container :: injectLoop pvcs (i + 1) cs

/-- The injection step of `mutate`: the pod after the loop of lines 161-188.
The loop writes each container back to its own index; the maps of a decoded
pod are not shared between containers, so the effect on a container is that of
`injectContainer` on its value. -/
def inject (pod : Pod) (pvcs : Int) : Pod :=
  { pod with spec := { pod.spec with containers := injectLoop pvcs 0 pod.spec.containers } }

/-- The pod `mutate` holds after counting and injecting (lines 138-188),
together with the counter. -/
def mutatePod {σ : Type} (k : Collaborators σ) (s : σ) (ns : String) (pod : Pod) :
    Pod × Int × σ :=
  match countLoop k ns pod.spec.volumes 0 s with
  | (pvcs, s1) => (inject pod pvcs, pvcs, s1)

/-- The tail of `mutate` (lines 190-202): serialize the pod, diff it against
the raw object, serialize the patch into the response created on line 136. -/
def patchResponse {σ : Type} (k : Collaborators σ) (raw : Bytes) (pod : Pod) :
    Except String AdmissionResponse :=
  match k.marshalPod pod with
  | Except.error err => Except.error ("failed to encode the mutated Pod object: " ++ err)
  | Except.ok bytes =>
    match k.createPatch raw bytes with
    | Except.error err => Except.error ("failed to compute the JSON patch: " ++ err)
    | Except.ok patch =>
      match k.marshalPatch patch with
      | Except.error err => Except.error ("failed to encode the JSON patch: " ++ err)
      | Except.ok patchBytes =>
        Except.ok { uid := "", allowed := true, result := none,
                    patch := some patchBytes, patchType := none }

/-- `mutate` of `main.go`. -/
def mutate {σ : Type} (k : Collaborators σ) (s : σ) (req : AdmissionRequest) :
    Except String AdmissionResponse × σ :=
  match k.unmarshalPod req.object with
  | Except.error err => (Except.error ("failed to decode raw object: " ++ err), s)
  | Except.ok pod =>
    match mutatePod k s req.nameSpace pod with
    | (pod1, _, s1) => (patchResponse k req.object pod1, s1)

/-! ## `mutateFunc` -/

/-- `mutateFunc` of `main.go`: the response left in the writer and the state
of the cluster client afterwards. -/
def mutateFunc {σ : Type} (k : Collaborators σ) (s : σ) (r : HttpRequest) :
    HttpResponse × σ :=
  if r.method != MethodPost then
    ({ status := StatusMethodNotAllowed, body := none }, s)
  else
    match r.body with
    | Except.error _ => ({ status := StatusBadRequest, body := none }, s)
    | Except.ok body =>
      if r.contentType != jsonContentType then
        ({ status := StatusBadRequest, body := none }, s)
      else
        match k.decodeReview body with
        | Except.error _ => ({ status := StatusBadRequest, body := none }, s)
        | Except.ok admissionReviewReq =>
          match admissionReviewReq.request with
          | none => ({ status := StatusBadRequest, body := none }, s)
          | some request =>
            match mutate k s request with
            | (Except.error err, s1) =>
              ({ status := StatusOK,
                 body := some
                   { request := none,
                     response := some
                       { uid := request.uid, allowed := true,
                         result := some { message := err },
                         patch := none, patchType := none } } }, s1)
            | (Except.ok resp, s1) =>
              ({ status := StatusOK,
                 body := some
                   { request := none,
                     response := some { resp with uid := request.uid } } }, s1)

/-! ## Specification-side definitions -/

/-- The classifier as the specification words it: a failed lookup counts as a
block device; a found claim counts exactly when it carries the
storage-provisioner annotation and the annotation matches the pattern. -/
def classifiesAsBlockDevice (pattern : String → Bool)
    (outcome : Except String PersistentVolumeClaim) : Bool :=
  match outcome with
  | Except.error _ => true
  | Except.ok claim =>
    match GoMap.get claim.annotations provisionerKey with
    | some provisioner => pattern provisioner
    | none => false

/-- The claim names referenced by the volumes, in volume order; a volume that
references no claim contributes nothing. -/
def claimNames (volumes : List Volume) : List String :=
  List.filterMap (fun v => Option.map (fun src => src.claimName) v.persistentVolumeClaim)
    volumes

/-- One lookup per name, in order, in namespace `ns`: the outcomes and the
client state afterwards. -/
def lookupAll {σ : Type} (k : Collaborators σ) (ns : String) :
    List String → σ → List (Except String PersistentVolumeClaim) × σ
  | [], s => ([], s)
  | name :: names, s =>
    match k.getClaim s ns name with
    | (outcome, s1) =>
      match lookupAll k ns names s1 with
      | (outcomes, s2) => (outcome :: outcomes, s2)

/-- The number of looked-up claims that classify as a block device. -/
def blockDeviceCount {σ : Type} (k : Collaborators σ) (s : σ) (ns : String)
    (volumes : List Volume) : Nat :=
  (List.filter (classifiesAsBlockDevice k.provRegexMatches)
    (lookupAll k ns (claimNames volumes) s).1).length

/-- What the injection loop must leave alone in a container: identity, the
untouched fields, and every resource entry under another key. -/
def sameOutsideBlockDevices (before after : Container) : Prop :=
  after.name = before.name ∧ after.rest = before.rest ∧
  ∀ key : String, key ≠ blockDeviceResource →
    lookupResource after.resources.limits key = lookupResource before.resources.limits key ∧
    lookupResource after.resources.requests key = lookupResource before.resources.requests key

/-- The container has no block-device entry, neither in its limits nor in its
requests. -/
def lacksBlockDevices (c : Container) : Prop :=
  lookupResource c.resources.limits blockDeviceResource = none ∧
  lookupResource c.resources.requests blockDeviceResource = none

instance (c : Container) : Decidable (lacksBlockDevices c) := by
  unfold lacksBlockDevices
  infer_instance

/-! ## A concrete cluster and concrete pods

Stand-ins for the libraries and the cluster, used to evaluate the code on
concrete inputs. -/

/-- A cluster in namespace `ns` with three claims: `c2` provisioned by cinder,
`c3` provisioned by nfs and `c4` without a provisioner annotation; every other
lookup fails. The state counts the lookups made. -/
def demoGetClaim (s : Nat) (ns name : String) : Except String PersistentVolumeClaim × Nat :=
  if ns = "ns" ∧ name = "c2" then
    (Except.ok { name := "c2", annotations := [(provisionerKey, "cinder")] }, s + 1)
  else if ns = "ns" ∧ name = "c3" then
    (Except.ok { name := "c3", annotations := [(provisionerKey, "nfs")] }, s + 1)
  else if ns = "ns" ∧ name = "c4" then
    (Except.ok { name := "c4", annotations := [("owner", "team-a")] }, s + 1)
  else
    (Except.error "persistentvolumeclaims not found", s + 1)

/-- A pod with two claim volumes (`c1` unknown to the cluster, `c2` on cinder),
one volume without a claim, and three containers; the second container
carries block-device entries from an earlier mutation. -/
def demoPod : Pod :=
  { generateName := "web-"
    metadata := "labels"
    status := ""
    spec :=
      { volumes :=
          [ { name := "data", persistentVolumeClaim := some { claimName := "c1", readOnly := false },
              otherSource := "" },
            { name := "tmp", persistentVolumeClaim := none, otherSource := "emptyDir" },
            { name := "cache", persistentVolumeClaim := some { claimName := "c2", readOnly := true },
              otherSource := "" } ]
        containers :=
          [ { name := "app", rest := "image-a",
              resources := { limits := none, requests := some [("cpu", NewQuantity 1 Format.DecimalSI)] } },
            { name := "sidecar", rest := "image-b",
              resources :=
                { limits := some [("memory", NewQuantity 64 Format.BinarySI),
                                  (blockDeviceResource, NewQuantity 5 Format.DecimalSI)]
                  requests := some [(blockDeviceResource, NewQuantity 5 Format.DecimalSI)] } },
            { name := "helper", rest := "image-c",
              resources := { limits := none, requests := none } } ]
        rest := "restartPolicy" } }

/-- The first container of `demoPod` after `mutate`. -/
def demoMutatedFirst : Container :=
  { name := "app", rest := "image-a",
    resources :=
      { limits := some [(blockDeviceResource, NewQuantity 2 Format.DecimalSI)]
        requests := some [(blockDeviceResource, NewQuantity 2 Format.DecimalSI),
                          ("cpu", NewQuantity 1 Format.DecimalSI)] } }

/-- The other containers of `demoPod` after `mutate`. -/
def demoMutatedOthers : List Container :=
  [ { name := "sidecar", rest := "image-b",
      resources := { limits := some [("memory", NewQuantity 64 Format.BinarySI)]
                     requests := some [] } },
    { name := "helper", rest := "image-c",
      resources := { limits := none, requests := none } } ]

/-- A pod without volumes whose only container has no resources. -/
def barePod : Pod :=
  { generateName := "bare-"
    metadata := ""
    status := ""
    spec :=
      { volumes := []
        containers := [ { name := "app", rest := "image-a",
                          resources := { limits := none, requests := none } } ]
        rest := "" } }

/-- A pod without volumes whose only container already has a block-device
limit. -/
def stalePod : Pod :=
  { generateName := "stale-"
    metadata := ""
    status := ""
    spec :=
      { volumes := []
        containers :=
          [ { name := "app", rest := "image-a",
              resources :=
                { limits := some [(blockDeviceResource, NewQuantity 1 Format.DecimalSI)]
                  requests := none } } ]
        rest := "" } }

/-- A pod with two volumes, neither referencing a claim, and two containers
that have cpu and memory entries but no block-device entry. -/
def plainPod : Pod :=
  { generateName := "plain-"
    metadata := "labels"
    status := ""
    spec :=
      { volumes :=
          [ { name := "tmp", persistentVolumeClaim := none, otherSource := "emptyDir" },
            { name := "config", persistentVolumeClaim := none, otherSource := "configMap" } ]
        containers :=
          [ { name := "app", rest := "image-a",
              resources :=
                { limits := some [("cpu", NewQuantity 2 Format.DecimalSI),
                                  ("memory", NewQuantity 128 Format.BinarySI)]
                  requests := some [("cpu", NewQuantity 1 Format.DecimalSI)] } },
            { name := "sidecar", rest := "image-b",
              resources := { limits := some [], requests := none } } ]
        rest := "restartPolicy" } }

/-- Stand-in libraries. The codec knows the documents `pod`, `bare`, `stale`
and `plain`; the differ answers with no operation for equal documents and with a
replacement of the whole document otherwise; the pattern is `cinder|vsphere`
on the provisioners of the demo cluster. -/
def demo : Collaborators Nat :=
  { decodeReview := fun body =>
      if body = "review" then
        Except.ok { request := some { uid := "uid-1", nameSpace := "ns", object := "bare" },
                    response := none }
      else if body = "review-broken-pod" then
        Except.ok { request := some { uid := "uid-2", nameSpace := "ns", object := "junk" },
                    response := none }
      else if body = "review-without-request" then
        Except.ok { request := none, response := none }
      else Except.error "no kind is registered"
    unmarshalPod := fun raw =>
      if raw = "pod" then Except.ok demoPod
      else if raw = "bare" then Except.ok barePod
      else if raw = "stale" then Except.ok stalePod
      else if raw = "plain" then Except.ok plainPod
      else Except.error "invalid character"
    marshalPod := fun pod =>
      if pod = barePod then Except.ok "bare"
      else if pod = stalePod then Except.ok "stale"
      else if pod = plainPod then Except.ok "plain"
      else Except.ok "mutated"
    createPatch := fun a b =>
      if a = b then Except.ok []
      else Except.ok [{ op := "replace", path := "", value := some b }]
    marshalPatch := fun ops =>
      Except.ok
        ("[" ++ String.intercalate "," (List.map (fun o => o.op ++ " " ++ o.path) ops) ++ "]")
    provRegexMatches := fun prov => prov == "cinder" || prov == "vsphere"
    getClaim := demoGetClaim }

/-- A process environment in which only `PROVISIONER_REGEX` is set. -/
def demoEnvironment : Environment :=
  fun key => if key = "PROVISIONER_REGEX" then some "nfs" else none

/-! ## Go maps -/

theorem GoMap.get_cons {β : Type} (a : String) (b : β) (es : GoMap β) (key : String) :
    GoMap.get ((a, b) :: es) key = if key = a then some b else GoMap.get es key := by
  by_cases h : key = a
  · have hb : (key == a) = true := by simpa using h
    simp [GoMap.get, List.lookup_cons, hb, h]
  · have hb : (key == a) = false := by simpa using h
    simp [GoMap.get, List.lookup_cons, hb, h]

theorem GoMap.delete_cons {β : Type} (a : String) (b : β) (es : GoMap β) (k : String) :
    GoMap.delete ((a, b) :: es) k =
      if a = k then GoMap.delete es k else (a, b) :: GoMap.delete es k := by
  by_cases h : a = k
  · simp [GoMap.delete, List.filter_cons, h]
  · simp [GoMap.delete, List.filter_cons, h]

theorem GoMap.get_delete_self {β : Type} (m : GoMap β) (k : String) :
    GoMap.get (GoMap.delete m k) k = none := by
  induction m with
  | nil => rfl
  | cons e es ih =>
    obtain ⟨a, b⟩ := e
    by_cases h : a = k
    · rw [GoMap.delete_cons, if_pos h]
      exact ih
    · have h2 : ¬ k = a := fun h3 => h h3.symm
      rw [GoMap.delete_cons, if_neg h, GoMap.get_cons, if_neg h2]
      exact ih

theorem GoMap.get_delete_ne {β : Type} (m : GoMap β) (k key : String) (hne : key ≠ k) :
    GoMap.get (GoMap.delete m k) key = GoMap.get m key := by
  induction m with
  | nil => rfl
  | cons e es ih =>
    obtain ⟨a, b⟩ := e
    by_cases h : a = k
    · have h2 : ¬ key = a := fun h3 => hne (h3.trans h)
      rw [GoMap.delete_cons, if_pos h, GoMap.get_cons, if_neg h2]
      exact ih
    · rw [GoMap.delete_cons, if_neg h, GoMap.get_cons, GoMap.get_cons, ih]

theorem GoMap.get_set_self {β : Type} (m : GoMap β) (k : String) (v : β) :
    GoMap.get (GoMap.set m k v) k = some v := by
  rw [GoMap.set, GoMap.get_cons, if_pos rfl]

theorem GoMap.get_set_ne {β : Type} (m : GoMap β) (k key : String) (v : β) (hne : key ≠ k) :
    GoMap.get (GoMap.set m k v) key = GoMap.get m key := by
  rw [GoMap.set, GoMap.get_cons, if_neg hne, GoMap.get_delete_ne m k key hne]

theorem GoMap.delete_delete {β : Type} (m : GoMap β) (k : String) :
    GoMap.delete (GoMap.delete m k) k = GoMap.delete m k := by
  simp [GoMap.delete, List.filter_filter]

theorem GoMap.delete_set {β : Type} (m : GoMap β) (k : String) (v : β) :
    GoMap.delete (GoMap.set m k v) k = GoMap.delete m k := by
  rw [GoMap.set, GoMap.delete_cons, if_pos rfl, GoMap.delete_delete]

theorem GoMap.set_set {β : Type} (m : GoMap β) (k : String) (v : β) :
    GoMap.set (GoMap.set m k v) k v = GoMap.set m k v := by
  have h := GoMap.delete_set m k v
  unfold GoMap.set at h ⊢
  rw [h]

theorem GoMap.delete_of_get_none {β : Type} (m : GoMap β) (k : String)
    (h : GoMap.get m k = none) : GoMap.delete m k = m := by
  induction m with
  | nil => rfl
  | cons e es ih =>
    obtain ⟨a, b⟩ := e
    by_cases h2 : k = a
    · rw [GoMap.get_cons, if_pos h2] at h
      exact absurd h (by simp)
    · have h3 : ¬ a = k := fun h4 => h2 h4.symm
      rw [GoMap.get_cons, if_neg h2] at h
      rw [GoMap.delete_cons, if_neg h3, ih h]

/-! ## The injection loop -/

theorem lookupResource_set_ne (m : Option ResourceList) (key : String) (v : Quantity)
    (hkey : key ≠ blockDeviceResource) :
    lookupResource (some (GoMap.set (Option.getD m []) blockDeviceResource v)) key =
      lookupResource m key := by
  cases m with
  | none =>
    show GoMap.get (GoMap.set [] blockDeviceResource v) key = none
    rw [GoMap.get_set_ne _ _ _ _ hkey]
    rfl
  | some l =>
    show GoMap.get (GoMap.set l blockDeviceResource v) key = GoMap.get l key
    exact GoMap.get_set_ne _ _ _ _ hkey

theorem injectContainer_zero (c : Container) :
    injectContainer 0 c =
      { c with resources :=
          { limits := Option.map (fun m => GoMap.delete m blockDeviceResource) c.resources.limits
            requests :=
              Option.map (fun m => GoMap.delete m blockDeviceResource) c.resources.requests } } := by
  obtain ⟨name, rest, ⟨limits, requests⟩⟩ := c
  cases limits <;> cases requests <;> simp [injectContainer]

theorem injectContainer_pos (n : Int) (hn : n ≠ 0) (c : Container) :
    injectContainer n c =
      { c with resources :=
          { limits := some (GoMap.set (Option.getD c.resources.limits []) blockDeviceResource
              (NewQuantity n Format.DecimalSI))
            requests := some (GoMap.set (Option.getD c.resources.requests []) blockDeviceResource
              (NewQuantity n Format.DecimalSI)) } } := by
  obtain ⟨name, rest, ⟨limits, requests⟩⟩ := c
  cases limits <;> cases requests <;> simp [injectContainer, hn]

theorem injectContainer_idempotent (n : Int) (c : Container) :
    injectContainer n (injectContainer n c) = injectContainer n c := by
  by_cases hn : n = 0
  · subst hn
    obtain ⟨name, rest, ⟨limits, requests⟩⟩ := c
    cases limits <;> cases requests <;>
      simp [injectContainer_zero, GoMap.delete_delete]
  · obtain ⟨name, rest, ⟨limits, requests⟩⟩ := c
    simp [injectContainer_pos n hn, GoMap.set_set]

theorem injectContainer_frame (n : Int) (c : Container) :
    sameOutsideBlockDevices c (injectContainer n c) := by
  by_cases hn : n = 0
  · subst hn
    obtain ⟨name, rest, ⟨limits, requests⟩⟩ := c
    refine ⟨by simp [injectContainer_zero], by simp [injectContainer_zero], ?_⟩
    intro key hkey
    cases limits <;> cases requests <;>
      simp [injectContainer_zero, lookupResource, GoMap.get_delete_ne _ _ _ hkey]
  · obtain ⟨name, rest, ⟨limits, requests⟩⟩ := c
    refine ⟨by simp [injectContainer_pos n hn], by simp [injectContainer_pos n hn], ?_⟩
    intro key hkey
    simp only [injectContainer_pos n hn]
    exact ⟨lookupResource_set_ne limits key _ hkey, lookupResource_set_ne requests key _ hkey⟩

theorem injectContainer_zero_lacks (c : Container) :
    lacksBlockDevices (injectContainer 0 c) := by
  obtain ⟨name, rest, ⟨limits, requests⟩⟩ := c
  cases limits <;> cases requests <;>
    simp [injectContainer_zero, lacksBlockDevices, lookupResource, GoMap.get_delete_self]

theorem injectContainer_pos_has (n : Int) (hn : n ≠ 0) (c : Container) :
    lookupResource (injectContainer n c).resources.limits blockDeviceResource =
        some (NewQuantity n Format.DecimalSI) ∧
    lookupResource (injectContainer n c).resources.requests blockDeviceResource =
        some (NewQuantity n Format.DecimalSI) := by
  simp [injectContainer_pos n hn, lookupResource, GoMap.get_set_self]

theorem injectContainer_zero_of_lacks (c : Container) (h : lacksBlockDevices c) :
    injectContainer 0 c = c := by
  obtain ⟨name, rest, ⟨limits, requests⟩⟩ := c
  obtain ⟨hl, hr⟩ := h
  cases limits <;> cases requests <;>
    simp_all [injectContainer_zero, lookupResource, GoMap.delete_of_get_none]

theorem injectLoop_idempotent (n : Int) (cs : List Container) (i : Nat) :
    injectLoop n i (injectLoop n i cs) = injectLoop n i cs := by
  induction cs generalizing i with
  | nil => rfl
  | cons c cs ih =>
    simp only [injectLoop]
    rw [injectContainer_idempotent, ih]

theorem injectLoop_frame (n : Int) (cs : List Container) (i : Nat) :
    List.Forall₂ sameOutsideBlockDevices cs (injectLoop n i cs) := by
  induction cs generalizing i with
  | nil => exact List.Forall₂.nil
  | cons c cs ih =>
    simp only [injectLoop]
    exact List.Forall₂.cons (injectContainer_frame _ c) (ih (i + 1))

theorem injectLoop_succ_lacks (n : Int) (cs : List Container) (i : Nat) :
    ∀ c ∈ injectLoop n (i + 1) cs, lacksBlockDevices c := by
  induction cs generalizing i with
  | nil => intro c hc; simp [injectLoop] at hc
  | cons d cs ih =>
    intro c hc
    simp only [injectLoop, List.mem_cons] at hc
    rcases hc with hc | hc
    · rw [hc, if_neg (Nat.succ_ne_zero i)]
      exact injectContainer_zero_lacks d
    · exact ih (i + 1) c hc

theorem injectLoop_zero_of_lacks (cs : List Container) (i : Nat)
    (h : ∀ c ∈ cs, lacksBlockDevices c) : injectLoop 0 i cs = cs := by
  induction cs generalizing i with
  | nil => rfl
  | cons c cs ih =>
    simp only [injectLoop, ite_self]
    rw [injectContainer_zero_of_lacks c (h c (List.mem_cons_self c cs)),
      ih (i + 1) (fun d hd => h d (List.mem_cons_of_mem c hd))]

/-- C6: the injection step is idempotent: injecting count `n` into a pod that
already went through the injection with count `n` changes nothing, for every
pod and every count. -/
theorem inject_idempotent (pod : Pod) (n : Int) :
    inject (inject pod n) n = inject pod n := by
  simp [inject, injectLoop_idempotent]

/-- C8: the injection loop keeps everything except the block-device entries:
the pod fields outside the containers are the same, the containers are paired
one to one in the same order, each keeps its name and its other fields, and in
its limits and requests every entry under another key has the same presence
and quantity as before. -/
theorem inject_frame (pod : Pod) (n : Int) :
    (inject pod n).generateName = pod.generateName ∧
    (inject pod n).metadata = pod.metadata ∧
    (inject pod n).status = pod.status ∧
    (inject pod n).spec.volumes = pod.spec.volumes ∧
    (inject pod n).spec.rest = pod.spec.rest ∧
    (inject pod n).spec.containers.length = pod.spec.containers.length ∧
    List.Forall₂ sameOutsideBlockDevices pod.spec.containers (inject pod n).spec.containers := by
  have h := injectLoop_frame n pod.spec.containers 0
  exact ⟨rfl, rfl, rfl, rfl, rfl, h.length_eq.symm, h⟩

/-! ## The counting loop -/

theorem claimNames_cons_none (v : Volume) (vs : List Volume)
    (h : v.persistentVolumeClaim = none) : claimNames (v :: vs) = claimNames vs := by
  simp [claimNames, List.filterMap_cons, h]

theorem claimNames_cons_some (v : Volume) (vs : List Volume)
    (src : PersistentVolumeClaimVolumeSource) (h : v.persistentVolumeClaim = some src) :
    claimNames (v :: vs) = src.claimName :: claimNames vs := by
  simp [claimNames, List.filterMap_cons, h]

theorem lookupAll_cons {σ : Type} (k : Collaborators σ) (ns name : String)
    (names : List String) (s : σ) :
    lookupAll k ns (name :: names) s =
      ((k.getClaim s ns name).1 :: (lookupAll k ns names (k.getClaim s ns name).2).1,
        (lookupAll k ns names (k.getClaim s ns name).2).2) := by
  simp only [lookupAll]

theorem lookupAll_length {σ : Type} (k : Collaborators σ) (ns : String)
    (names : List String) (s : σ) : (lookupAll k ns names s).1.length = names.length := by
  induction names generalizing s with
  | nil => rfl
  | cons name names ih => rw [lookupAll_cons]; simp [ih]

theorem countLoop_acc {σ : Type} (k : Collaborators σ) (ns : String) (volumes : List Volume)
    (pvcs : Int) (s : σ) :
    countLoop k ns volumes pvcs s =
      (pvcs + (blockDeviceCount k s ns volumes : Int),
        (lookupAll k ns (claimNames volumes) s).2) := by
  induction volumes generalizing pvcs s with
  | nil => simp [countLoop, blockDeviceCount, claimNames, lookupAll]
  | cons v vs ih =>
    cases hv : v.persistentVolumeClaim with
    | none =>
      simp only [countLoop, hv, blockDeviceCount, claimNames_cons_none v vs hv]
      rw [ih]
      rfl
    | some src =>
      simp only [countLoop, hv, blockDeviceCount, claimNames_cons_some v vs src hv,
        lookupAll_cons]
      rcases hg : k.getClaim s ns src.claimName with ⟨outcome, s1⟩
      cases outcome with
      | error e =>
        simp only [classifiesAsBlockDevice, List.filter_cons, if_true, List.length_cons]
        rw [ih]
        simp only [blockDeviceCount]
        push_cast
        congr 1
        ring
      | ok claim =>
        cases ha : GoMap.get claim.annotations provisionerKey with
        | none =>
          simp only [classifiesAsBlockDevice, ha, List.filter_cons]
          rw [ih]
          simp [blockDeviceCount]
        | some prov =>
          by_cases hm : k.provRegexMatches prov = true
          · simp only [classifiesAsBlockDevice, ha, hm, List.filter_cons, if_true,
              List.length_cons]
            rw [ih]
            simp only [blockDeviceCount]
            push_cast
            congr 1
            ring
          · have hm2 : k.provRegexMatches prov = false := by simpa using hm
            simp only [classifiesAsBlockDevice, ha, hm2, List.filter_cons, Bool.false_eq_true,
              if_false]
            rw [ih]
            rfl

/-! ## `mutate` on the pod -/

theorem claimNames_eq_nil (volumes : List Volume)
    (h : ∀ v ∈ volumes, v.persistentVolumeClaim = none) : claimNames volumes = [] := by
  induction volumes with
  | nil => rfl
  | cons v vs ih =>
    rw [claimNames_cons_none v vs (h v (List.mem_cons_self v vs))]
    exact ih (fun w hw => h w (List.mem_cons_of_mem v hw))

theorem claimNames_length (volumes : List Volume) :
    (claimNames volumes).length =
      (List.filter (fun v => v.persistentVolumeClaim.isSome) volumes).length := by
  induction volumes with
  | nil => rfl
  | cons v vs ih =>
    cases hv : v.persistentVolumeClaim with
    | none => rw [claimNames_cons_none v vs hv, ih]; simp [List.filter_cons, hv]
    | some src => rw [claimNames_cons_some v vs src hv]; simp [List.filter_cons, hv, ih]

theorem mutatePod_eq {σ : Type} (k : Collaborators σ) (s : σ) (ns : String) (pod : Pod) :
    mutatePod k s ns pod =
      (inject pod (blockDeviceCount k s ns pod.spec.volumes : Int),
        (blockDeviceCount k s ns pod.spec.volumes : Int),
        (lookupAll k ns (claimNames pod.spec.volumes) s).2) := by
  simp [mutatePod, countLoop_acc]

theorem blockDeviceCount_of_all {σ : Type} (k : Collaborators σ) (s : σ) (ns : String)
    (volumes : List Volume)
    (hall : ∀ o ∈ (lookupAll k ns (claimNames volumes) s).1,
      classifiesAsBlockDevice k.provRegexMatches o = true) :
    blockDeviceCount k s ns volumes = (claimNames volumes).length := by
  unfold blockDeviceCount
  rw [List.filter_eq_self.mpr hall, lookupAll_length]

/-- C3: the counter `pvcs` that `mutate` holds after its first loop equals the
number of claim-referencing volumes of the pod that classify as a block
device. The claims are looked up once each, in volume order, in the namespace
of the request; a volume without a claim is neither looked up nor counted. A
lookup that fails classifies as a block device; a claim that was found
classifies exactly when it has the storage-provisioner annotation and the
pattern matches its value, so a claim without the annotation is not counted.
The client ends in the state reached after exactly those lookups. -/
theorem mutatePod_counts_block_devices {σ : Type} (k : Collaborators σ) (s : σ) (ns : String)
    (pod : Pod) :
    (mutatePod k s ns pod).2 =
      (((List.filter (classifiesAsBlockDevice k.provRegexMatches)
          (lookupAll k ns (claimNames pod.spec.volumes) s).1).length : Int),
        (lookupAll k ns (claimNames pod.spec.volumes) s).2) ∧
    (lookupAll k ns (claimNames pod.spec.volumes) s).1.length =
      (List.filter (fun v => v.persistentVolumeClaim.isSome) pod.spec.volumes).length ∧
    (∀ e, classifiesAsBlockDevice k.provRegexMatches (Except.error e) = true) ∧
    (∀ claim, classifiesAsBlockDevice k.provRegexMatches (Except.ok claim) = true ↔
      ∃ prov, GoMap.get claim.annotations provisionerKey = some prov ∧
        k.provRegexMatches prov = true) ∧
    (∀ claim, GoMap.get claim.annotations provisionerKey = none →
      classifiesAsBlockDevice k.provRegexMatches (Except.ok claim) = false) := by
  refine ⟨?_, ?_, fun e => rfl, ?_, ?_⟩
  · rw [mutatePod_eq]
    rfl
  · rw [lookupAll_length]
    exact claimNames_length pod.spec.volumes
  · intro claim
    cases ha : GoMap.get claim.annotations provisionerKey with
    | none => simp [classifiesAsBlockDevice, ha]
    | some prov => simp [classifiesAsBlockDevice, ha]
  · intro claim ha
    simp [classifiesAsBlockDevice, ha]

/-- C4 (amended): when the pod has at least one claim-referencing volume and
every looked-up claim classifies as a block device, the first container of the
pod computed by `mutate` has the block-device key in both its limits and its
requests, with the whole-unit decimal quantity equal to the number of those
volumes, and every other container has the key in neither map. -/
theorem mutatePod_injects_count {σ : Type} (k : Collaborators σ) (s : σ) (ns : String)
    (pod : Pod)
    (hall : ∀ o ∈ (lookupAll k ns (claimNames pod.spec.volumes) s).1,
      classifiesAsBlockDevice k.provRegexMatches o = true)
    (hsome : claimNames pod.spec.volumes ≠ []) :
    ∀ c cs, (mutatePod k s ns pod).1.spec.containers = c :: cs →
      lookupResource c.resources.limits blockDeviceResource =
        some (NewQuantity ((claimNames pod.spec.volumes).length : Int) Format.DecimalSI) ∧
      lookupResource c.resources.requests blockDeviceResource =
        some (NewQuantity ((claimNames pod.spec.volumes).length : Int) Format.DecimalSI) ∧
      ∀ d ∈ cs, lacksBlockDevices d := by
  intro c cs hcs
  rw [mutatePod_eq, blockDeviceCount_of_all k s ns pod.spec.volumes hall] at hcs
  have hpos : ((claimNames pod.spec.volumes).length : Int) ≠ 0 := by
    have h := List.length_pos.mpr hsome
    omega
  simp only [inject] at hcs
  cases hpc : pod.spec.containers with
  | nil => rw [hpc] at hcs; simp [injectLoop] at hcs
  | cons c0 cs0 =>
    rw [hpc] at hcs
    simp only [injectLoop, if_true, List.cons.injEq] at hcs
    obtain ⟨hc, hrest⟩ := hcs
    subst hc
    refine ⟨(injectContainer_pos_has _ hpos c0).1, (injectContainer_pos_has _ hpos c0).2, ?_⟩
    intro d hd
    rw [← hrest] at hd
    exact injectLoop_succ_lacks _ cs0 0 d hd

/-- C4, evaluated: `demoPod` has two claim volumes, both classifying as block
devices; its first container ends with the quantity 2 and the others with no
entry. -/
theorem mutatePod_injects_count_witness :
    lookupResource demoMutatedFirst.resources.limits blockDeviceResource =
      some (NewQuantity ((claimNames demoPod.spec.volumes).length : Int) Format.DecimalSI) ∧
    lookupResource demoMutatedFirst.resources.requests blockDeviceResource =
      some (NewQuantity ((claimNames demoPod.spec.volumes).length : Int) Format.DecimalSI) ∧
    ∀ d ∈ demoMutatedOthers, lacksBlockDevices d :=
  mutatePod_injects_count demo 0 "ns" demoPod (by decide) (by decide)
    demoMutatedFirst demoMutatedOthers (by decide)

/-- C4 as stated fails on a pod without claim volumes: every claim volume of
`barePod` classifies as a block device (there is none), the count is 0, and
the first container gets no block-device entry instead of the quantity 0. -/
theorem first_container_without_claims_has_no_entry :
    ¬ ((∀ o ∈ (lookupAll demo "ns" (claimNames barePod.spec.volumes) 0).1,
          classifiesAsBlockDevice demo.provRegexMatches o = true) →
        ∀ c cs, (mutatePod demo 0 "ns" barePod).1.spec.containers = c :: cs →
          lookupResource c.resources.limits blockDeviceResource =
            some (NewQuantity ((claimNames barePod.spec.volumes).length : Int)
              Format.DecimalSI) ∧
          lookupResource c.resources.requests blockDeviceResource =
            some (NewQuantity ((claimNames barePod.spec.volumes).length : Int)
              Format.DecimalSI) ∧
          ∀ d ∈ cs, lacksBlockDevices d) := by
  intro h
  have h2 := h (by decide)
    { name := "app", rest := "image-a", resources := { limits := none, requests := none } } []
    (by decide)
  exact absurd h2.1 (by decide)

/-- C5 (amended): when no volume of the decoded pod references a claim and no
container has a block-device entry, `mutate` makes no lookup, the pod it
computes is the decoded pod, and the patch in its response is empty: it is the
serialization of the empty operation list. The libraries are assumed to do
their part: the serializer gives back the raw object for the pod decoded from
it, the differ finds no operation between equal documents, and the empty
operation list serializes. -/
theorem mutate_without_claims {σ : Type} (k : Collaborators σ) (s : σ)
    (req : AdmissionRequest) (pod : Pod) (emptyPatch : Bytes)
    (hdec : k.unmarshalPod req.object = Except.ok pod)
    (hvol : ∀ v ∈ pod.spec.volumes, v.persistentVolumeClaim = none)
    (hclean : ∀ c ∈ pod.spec.containers, lacksBlockDevices c)
    (hround : k.marshalPod pod = Except.ok req.object)
    (hdiff : ∀ doc, k.createPatch doc doc = Except.ok [])
    (hempty : k.marshalPatch [] = Except.ok emptyPatch) :
    mutatePod k s req.nameSpace pod = (pod, 0, s) ∧
    mutate k s req =
      (Except.ok { uid := "", allowed := true, result := none,
                   patch := some emptyPatch, patchType := none }, s) := by
  have hnames := claimNames_eq_nil pod.spec.volumes hvol
  have hpod : mutatePod k s req.nameSpace pod = (pod, 0, s) := by
    rw [mutatePod_eq]
    simp [blockDeviceCount, hnames, lookupAll, inject, injectLoop_zero_of_lacks _ 0 hclean]
  refine ⟨hpod, ?_⟩
  simp [mutate, hdec, hpod, patchResponse, hround, hdiff, hempty]

/-- C5, evaluated on `plainPod`, whose volumes are an emptyDir and a configMap
and whose containers have cpu and memory entries: starting from a client that
has made 3 lookups, the pod is unchanged, no lookup is added, and the patch is
the serialized empty list. -/
theorem mutate_without_claims_witness :
    mutatePod demo 3 "ns" plainPod = (plainPod, 0, 3) ∧
    mutate demo 3 { uid := "uid-3", nameSpace := "ns", object := "plain" } =
      (Except.ok { uid := "", allowed := true, result := none,
                   patch := some "[]", patchType := none }, 3) :=
  mutate_without_claims demo 3 { uid := "uid-3", nameSpace := "ns", object := "plain" }
    plainPod "[]" (by rfl) (by decide) (by decide) (by rfl)
    (by intro doc; simp [demo]) (by rfl)

/-- C5 as stated fails on a pod that already has a block-device entry:
`stalePod` has no volume at all, yet the pod `mutate` computes differs from
the decoded one, because the entry of its container is deleted. -/
theorem stale_entry_removed_without_claims :
    ¬ ((∀ v ∈ stalePod.spec.volumes, v.persistentVolumeClaim = none) →
        (mutatePod demo 0 "ns" stalePod).1 = stalePod) := by
  intro h
  exact absurd (h (by decide)) (by decide)

/-! ## The admission exchange -/

theorem patchResponse_allowed {σ : Type} (k : Collaborators σ) (raw : Bytes) (pod : Pod)
    (resp : AdmissionResponse) (h : patchResponse k raw pod = Except.ok resp) :
    resp.allowed = true := by
  unfold patchResponse at h
  split at h
  · exact absurd h (by simp)
  · split at h
    · exact absurd h (by simp)
    · split at h
      · exact absurd h (by simp)
      · cases h; rfl

theorem patchResponse_error_cause {σ : Type} (k : Collaborators σ) (raw : Bytes) (pod : Pod)
    (err : String) (h : patchResponse k raw pod = Except.error err) :
    (∃ e, k.marshalPod pod = Except.error e ∧
      err = "failed to encode the mutated Pod object: " ++ e) ∨
    (∃ bytes e, k.marshalPod pod = Except.ok bytes ∧
      k.createPatch raw bytes = Except.error e ∧
      err = "failed to compute the JSON patch: " ++ e) ∨
    (∃ bytes patch e, k.marshalPod pod = Except.ok bytes ∧
      k.createPatch raw bytes = Except.ok patch ∧
      k.marshalPatch patch = Except.error e ∧
      err = "failed to encode the JSON patch: " ++ e) := by
  cases hmp : k.marshalPod pod with
  | error e =>
    simp only [patchResponse, hmp, Except.error.injEq] at h
    exact Or.inl ⟨e, rfl, h.symm⟩
  | ok bytes =>
    cases hcp : k.createPatch raw bytes with
    | error e =>
      simp only [patchResponse, hmp, hcp, Except.error.injEq] at h
      exact Or.inr (Or.inl ⟨bytes, e, rfl, hcp, h.symm⟩)
    | ok patch =>
      cases hpp : k.marshalPatch patch with
      | error e =>
        simp only [patchResponse, hmp, hcp, hpp, Except.error.injEq] at h
        exact Or.inr (Or.inr ⟨bytes, patch, e, rfl, hcp, hpp, h.symm⟩)
      | ok patchBytes =>
        simp only [patchResponse, hmp, hcp, hpp] at h
        exact absurd h (by simp)

theorem mutate_allowed {σ : Type} (k : Collaborators σ) (s s1 : σ) (req : AdmissionRequest)
    (resp : AdmissionResponse) (h : mutate k s req = (Except.ok resp, s1)) :
    resp.allowed = true := by
  unfold mutate at h
  split at h
  · simp at h
  · simp only [Prod.mk.injEq] at h
    exact patchResponse_allowed k _ _ resp h.1

theorem mutateFunc_core {σ : Type} (k : Collaborators σ) (s : σ) (r : HttpRequest)
    (body : Bytes) (review : AdmissionReview) (request : AdmissionRequest)
    (hm : r.method = MethodPost) (hb : r.body = Except.ok body)
    (hc : r.contentType = jsonContentType) (hd : k.decodeReview body = Except.ok review)
    (hr : review.request = some request) :
    mutateFunc k s r =
      match mutate k s request with
      | (Except.error err, s1) =>
        ({ status := StatusOK,
           body := some
             { request := none,
               response := some
                 { uid := request.uid, allowed := true,
                   result := some { message := err },
                   patch := none, patchType := none } } }, s1)
      | (Except.ok resp, s1) =>
        ({ status := StatusOK,
           body := some
             { request := none,
               response := some { resp with uid := request.uid } } }, s1) := by
  simp [mutateFunc, hm, hb, hc, hd, hr]

/-- C1: whenever the review decodes and carries a request, the review that
`mutateFunc` writes holds a response whose UID is the UID of the request,
whether `mutate` answered with a response or with an error. -/
theorem mutateFunc_echoes_uid {σ : Type} (k : Collaborators σ) (s : σ) (r : HttpRequest)
    (body : Bytes) (review : AdmissionReview) (request : AdmissionRequest)
    (hm : r.method = MethodPost) (hb : r.body = Except.ok body)
    (hc : r.contentType = jsonContentType) (hd : k.decodeReview body = Except.ok review)
    (hr : review.request = some request) :
    ∃ resp : AdmissionResponse,
      (mutateFunc k s r).1 =
        { status := StatusOK, body := some { request := none, response := some resp } } ∧
      resp.uid = request.uid := by
  rw [mutateFunc_core k s r body review request hm hb hc hd hr]
  rcases hmut : mutate k s request with ⟨res, s1⟩
  cases res with
  | error err => exact ⟨_, rfl, rfl⟩
  | ok resp => exact ⟨_, rfl, rfl⟩

/-- C1, evaluated on a review for `barePod` with UID `uid-1`. -/
theorem mutateFunc_echoes_uid_witness :
    ∃ resp : AdmissionResponse,
      (mutateFunc demo 0
          { method := "POST", body := Except.ok "review",
            contentType := "application/json" }).1 =
        { status := StatusOK, body := some { request := none, response := some resp } } ∧
      resp.uid = "uid-1" :=
  mutateFunc_echoes_uid demo 0
    { method := "POST", body := Except.ok "review", contentType := "application/json" }
    "review"
    { request := some { uid := "uid-1", nameSpace := "ns", object := "bare" }, response := none }
    { uid := "uid-1", nameSpace := "ns", object := "bare" }
    (by rfl) (by rfl) (by rfl) (by rfl) (by rfl)

/-- C2: the core never refuses. A response returned by `mutate` has
`allowed = true`; the response `mutateFunc` writes has `allowed = true`; and
when `mutate` returns an error, which happens only when the raw object does not
decode, the mutated pod does not encode, or the patch cannot be computed or
encoded, the written response is allowed, carries the text of the error as its
result message and has no patch. -/
theorem mutateFunc_always_allows {σ : Type} (k : Collaborators σ) (s : σ) (r : HttpRequest)
    (body : Bytes) (review : AdmissionReview) (request : AdmissionRequest)
    (hm : r.method = MethodPost) (hb : r.body = Except.ok body)
    (hc : r.contentType = jsonContentType) (hd : k.decodeReview body = Except.ok review)
    (hr : review.request = some request) :
    (∀ resp s1, mutate k s request = (Except.ok resp, s1) → resp.allowed = true) ∧
    (∃ resp : AdmissionResponse,
      (mutateFunc k s r).1.body = some { request := none, response := some resp } ∧
      resp.allowed = true) ∧
    (∀ err s1, mutate k s request = (Except.error err, s1) →
      (mutateFunc k s r).1.body =
        some { request := none,
               response := some { uid := request.uid, allowed := true,
                                  result := some { message := err },
                                  patch := none, patchType := none } }) ∧
    (∀ err s1, mutate k s request = (Except.error err, s1) →
      (∃ e, k.unmarshalPod request.object = Except.error e ∧
        err = "failed to decode raw object: " ++ e) ∨
      (∃ pod e, k.unmarshalPod request.object = Except.ok pod ∧
        k.marshalPod (mutatePod k s request.nameSpace pod).1 = Except.error e ∧
        err = "failed to encode the mutated Pod object: " ++ e) ∨
      (∃ pod bytes e, k.unmarshalPod request.object = Except.ok pod ∧
        k.marshalPod (mutatePod k s request.nameSpace pod).1 = Except.ok bytes ∧
        k.createPatch request.object bytes = Except.error e ∧
        err = "failed to compute the JSON patch: " ++ e) ∨
      (∃ pod bytes patch e, k.unmarshalPod request.object = Except.ok pod ∧
        k.marshalPod (mutatePod k s request.nameSpace pod).1 = Except.ok bytes ∧
        k.createPatch request.object bytes = Except.ok patch ∧
        k.marshalPatch patch = Except.error e ∧
        err = "failed to encode the JSON patch: " ++ e)) := by
  refine ⟨fun resp s1 h => mutate_allowed k s s1 request resp h, ?_, ?_, ?_⟩
  · rw [mutateFunc_core k s r body review request hm hb hc hd hr]
    rcases hmut : mutate k s request with ⟨res, s1⟩
    cases res with
    | error err => exact ⟨_, rfl, rfl⟩
    | ok resp => exact ⟨_, rfl, mutate_allowed k s s1 request resp hmut⟩
  · intro err s1 h
    rw [mutateFunc_core k s r body review request hm hb hc hd hr, h]
  · intro err s1 h
    unfold mutate at h
    cases hu : k.unmarshalPod request.object with
    | error e =>
      rw [hu] at h
      simp only [Prod.mk.injEq, Except.error.injEq] at h
      exact Or.inl ⟨e, rfl, h.1.symm⟩
    | ok pod =>
      rw [hu] at h
      simp only [Prod.mk.injEq] at h
      rcases patchResponse_error_cause k _ _ err h.1 with ⟨e, h1, h2⟩ | ⟨b, e, h1, h2, h3⟩ |
        ⟨b, ops, e, h1, h2, h3, h4⟩
      · exact Or.inr (Or.inl ⟨pod, e, rfl, h1, h2⟩)
      · exact Or.inr (Or.inr (Or.inl ⟨pod, b, e, rfl, h1, h2, h3⟩))
      · exact Or.inr (Or.inr (Or.inr ⟨pod, b, ops, e, rfl, h1, h2, h3, h4⟩))

/-- C2, evaluated on a review whose raw object is not a pod: the answer is
allowed, with the error text as message and no patch. -/
theorem mutateFunc_always_allows_witness :
    (mutateFunc demo 0
        { method := "POST", body := Except.ok "review-broken-pod",
          contentType := "application/json" }).1.body =
      some { request := none,
             response := some { uid := "uid-2", allowed := true,
                                result := some { message :=
                                  "failed to decode raw object: invalid character" },
                                patch := none, patchType := none } } :=
  (mutateFunc_always_allows demo 0
    { method := "POST", body := Except.ok "review-broken-pod",
      contentType := "application/json" }
    "review-broken-pod"
    { request := some { uid := "uid-2", nameSpace := "ns", object := "junk" },
      response := none }
    { uid := "uid-2", nameSpace := "ns", object := "junk" }
    (by rfl) (by rfl) (by rfl) (by rfl) (by rfl)).2.2.1
    "failed to decode raw object: invalid character" 0 (by rfl)

/-- C10: a request stopped at the protocol boundary gets a bare status and
nothing else. If the method is not POST the status is 405; if the method is
POST and the content type is not `application/json`, or the body does not
decode as an admission review, or the decoded review has no request, the
status is 400. In each case no body is written and the cluster client is left
in the state it was in: `mutate` did not run and no claim was looked up. -/
theorem mutateFunc_rejects_at_boundary {σ : Type} (k : Collaborators σ) (s : σ)
    (r : HttpRequest)
    (h : r.method ≠ MethodPost ∨ r.contentType ≠ jsonContentType ∨
      (∃ body e, r.body = Except.ok body ∧ k.decodeReview body = Except.error e) ∨
      (∃ body review, r.body = Except.ok body ∧ k.decodeReview body = Except.ok review ∧
        review.request = none)) :
    mutateFunc k s r =
      ({ status := if r.method = MethodPost then StatusBadRequest else StatusMethodNotAllowed,
         body := none }, s) := by
  by_cases hm : r.method = MethodPost
  · rcases h with h | h | ⟨body, e, hb, hd⟩ | ⟨body, review, hb, hd, hr⟩
    · exact absurd hm h
    · cases hbody : r.body <;> simp [mutateFunc, hm, hbody, h]
    · by_cases hc : r.contentType = jsonContentType
      · simp [mutateFunc, hm, hb, hc, hd]
      · simp [mutateFunc, hm, hb, hc]
    · by_cases hc : r.contentType = jsonContentType
      · simp [mutateFunc, hm, hb, hc, hd, hr]
      · simp [mutateFunc, hm, hb, hc]
  · simp [mutateFunc, hm]

/-- C10, evaluated on a POST whose content type carries a charset suffix. -/
theorem mutateFunc_rejects_at_boundary_witness :
    mutateFunc demo 7
        { method := "POST", body := Except.ok "review",
          contentType := "application/json; charset=utf-8" } =
      ({ status := StatusBadRequest, body := none }, 7) :=
  mutateFunc_rejects_at_boundary demo 7
    { method := "POST", body := Except.ok "review",
      contentType := "application/json; charset=utf-8" }
    (Or.inr (Or.inl (by decide)))

/-! ## Start-up configuration -/

/-- C9, on the code: with `PROVISIONER_REGEX` set to `nfs` and nothing else in
the environment, the pattern source is still the default `cinder|vsphere`,
because `main` asks `getEnv` for the variable named by `provisionerKey`; and
setting that variable instead is what changes the source. -/
theorem provRegexSource_ignores_provisionerEnv :
    demoEnvironment provisionerEnv = some "nfs" ∧
    getEnv demoEnvironment provisionerEnv "cinder|vsphere" = "nfs" ∧
    provRegexSource demoEnvironment = "cinder|vsphere" ∧
    provRegexSource
      (fun key => if key = provisionerKey then some "glusterfs" else none) = "glusterfs" := by
  decide

/-! ## Evaluations on the demo cluster -/

/-- On `demoPod` the loop looks up `c1` (not found) and `c2` (cinder), skips
the volume without a claim, and counts 2 after 2 lookups. -/
theorem countLoop_demoPod : countLoop demo "ns" demoPod.spec.volumes 0 0 = (2, 2) := by
  decide

/-- On `demoPod` the first container receives the count and the stale entries
of the second container are removed. -/
theorem mutatePod_demoPod :
    (mutatePod demo 0 "ns" demoPod).1.spec.containers =
      demoMutatedFirst :: demoMutatedOthers := by
  decide

end BlockDevicesWebhook
